import Mathlib

/-!
# Verification of `src/scenes.rs` (opengl-squares)

Shallow embedding of the scene-selector and shader-program-builder code of
`src/scenes.rs`, together with a small model of the OpenGL driver state that
the code talks to through the `gl` FFI bindings.

Modelling conventions:
* Shader source buffers (`&[u8]`) are `List Nat` (byte lists).
* Info-log texts are `List Char`; a diagnostic line printed with `eprintln!`
  is represented structurally by the `Diag` inductive, whose constructors
  record the fixed prefix of the formatted line
  (`"SHADER COMPILE ERROR ({ty}): {log}"` resp. `"PROGRAM LINK ERROR: {log}"`).
* The GL driver's freedom (whether a given source compiles, what the info log
  says, whether a program links) is an explicit `Driver` oracle carried inside
  the `GLState`; the embedded code is a deterministic function of it.
* Machine integers (`i32` lengths and statuses) are modelled as `Int`; none of
  the quantities involved (log lengths, object names) approach `2^31`, so no
  wrap-around is modelled.
* GL object names for shaders and programs live in one shared name space, as
  in OpenGL; `GLState.nextId` hands them out.
-/

/-- GL enum `GL_VERTEX_SHADER` (0x8B31). -/
def VERTEX_SHADER : Nat := 35633

/-- GL enum `GL_FRAGMENT_SHADER` (0x8B30). -/
def FRAGMENT_SHADER : Nat := 35632

/-- GL enum `GL_COMPILE_STATUS` (0x8B81). -/
def COMPILE_STATUS : Nat := 35713

/-- GL enum `GL_LINK_STATUS` (0x8B82). -/
def LINK_STATUS : Nat := 35714

/-- GL enum `GL_INFO_LOG_LENGTH` (0x8B84). -/
def INFO_LOG_LENGTH : Nat := 35716

/-- GL enum `GL_DEBUG_SOURCE_APPLICATION` (0x824A). -/
def DEBUG_SOURCE_APP : Nat := 33354

/-- A shader object held by the GL context: its type, the source last given
to `glShaderSource`, the compile status and info log produced by the last
`glCompileShader`, and whether `glDeleteShader` has flagged it for deletion. -/
structure ShaderObj where
  ty : Nat
  src : List Nat
  compiled : Bool
  log : List Char
  deleted : Bool
deriving DecidableEq

/-- A program object held by the GL context: the names of its attached
shaders (in attachment order), and the link status and info log produced by
the last `glLinkProgram`. -/
structure ProgramObj where
  attached : List Nat
  linked : Bool
  log : List Char
deriving DecidableEq

/-- The GL driver oracle: decides, for a shader type and source buffer,
whether compilation succeeds and what the info log is, and, for the list of
attached shaders' sources, whether linking succeeds and what the program info
log is.  This is the environment the embedded code runs against. -/
structure Driver where
  compileOk : Nat → List Nat → Bool
  compileLog : Nat → List Nat → List Char
  linkOk : List (List Nat) → Bool
  linkLog : List (List Nat) → List Char

/-- The GL context state: driver oracle, next fresh object name, the live
shader and program objects (association lists keyed by object name), and the
currently bound program (`glUseProgram`). -/
structure GLState where
  driver : Driver
  nextId : Nat
  shaders : List (Nat × ShaderObj)
  programs : List (Nat × ProgramObj)
  current : Nat

/-- Fresh GL context with no objects; object names start at 1 (0 is never a
valid object name in GL). -/
def GLState.init (d : Driver) : GLState :=
  { driver := d, nextId := 1, shaders := [], programs := [], current := 0 }

/-- Look up the shader object with the given name, if that name names a
shader object. -/
def GLState.shaderAt (st : GLState) (id : Nat) : Option ShaderObj :=
  (st.shaders.find? (fun p => p.1 == id)).map (fun p => p.2)

/-- Look up the program object with the given name, if that name names a
program object. -/
def GLState.programAt (st : GLState) (id : Nat) : Option ProgramObj :=
  (st.programs.find? (fun p => p.1 == id)).map (fun p => p.2)

/-- Update the shader object with the given name (no-op on other names). -/
def GLState.setShader (st : GLState) (id : Nat) (f : ShaderObj → ShaderObj) : GLState :=
  { st with shaders := st.shaders.map (fun p => if p.1 == id then (p.1, f p.2) else p) }

/-- Update the program object with the given name (no-op on other names). -/
def GLState.setProgram (st : GLState) (id : Nat) (f : ProgramObj → ProgramObj) : GLState :=
  { st with programs := st.programs.map (fun p => if p.1 == id then (p.1, f p.2) else p) }

/-- `glCreateShader`: allocates a fresh shader object of the given type with
empty source and log. Returns its name. -/
def glCreateShader (st : GLState) (ty : Nat) : Nat × GLState :=
  (st.nextId,
   { st with nextId := st.nextId + 1,
             shaders := (st.nextId,
               { ty := ty, src := [], compiled := false, log := [], deleted := false })
               :: st.shaders })

/-- `glShaderSource` (with one source string of explicitly given length, as
the Rust code calls it): replaces the shader's source. -/
def glShaderSource (st : GLState) (id : Nat) (src : List Nat) : GLState :=
  st.setShader id (fun s => { s with src := src })

/-- `glCompileShader`: compiles the stored source; the driver oracle decides
the resulting compile status and info log. -/
def glCompileShader (st : GLState) (id : Nat) : GLState :=
  st.setShader id (fun s =>
    { s with compiled := st.driver.compileOk s.ty s.src,
             log := st.driver.compileLog s.ty s.src })

/-- `glGetShaderiv(shader, pname, params)`, modelled per the OpenGL spec:

* if `id` does not name a shader object (e.g. it names a program object),
  the call generates `GL_INVALID_OPERATION` and `params` is not modified —
  modelled by returning `current`, the value the out-parameter held before
  the call;
* `GL_COMPILE_STATUS` yields 1 (true) or 0 (false);
* `GL_INFO_LOG_LENGTH` yields the log length including the null terminator,
  i.e. `log.length + 1`, or 0 when the shader has no info log;
* any other pname accepted here by real GL is unused by this program, and a
  pname that is invalid for shader objects (such as `GL_LINK_STATUS`)
  generates `GL_INVALID_ENUM`, leaving `params` unmodified. -/
def glGetShaderiv (st : GLState) (id : Nat) (pname : Nat) (current : Int) : Int :=
  match st.shaderAt id with
  | none => current
  | some s =>
    if pname == COMPILE_STATUS then (if s.compiled then 1 else 0)
    else if pname == INFO_LOG_LENGTH then
      (if s.log.length == 0 then 0 else (s.log.length : Int) + 1)
    else current

/-- `glGetShaderInfoLog(shader, bufSize, length, infoLog)`, modelled per the
OpenGL spec: writes up to `bufSize - 1` characters of the log followed by a
null terminator, and returns in `length` the number of characters written
excluding the null terminator.  The pair returned is (buffer contents up to
the written null terminator, returned length).  If `id` does not name a
shader object (`GL_INVALID_OPERATION`) or `bufSize` is negative
(`GL_INVALID_VALUE`), nothing is written: buffer and length keep their
previous contents `curBuf`, `curLen`. -/
def glGetShaderInfoLog (st : GLState) (id : Nat) (bufSize : Int)
    (curBuf : List Char) (curLen : Int) : List Char × Int :=
  match st.shaderAt id with
  | none => (curBuf, curLen)
  | some s =>
    if bufSize < 0 then (curBuf, curLen)
    else
      let n := min (bufSize - 1).toNat s.log.length
      (s.log.take n, (n : Int))

/-- `glGetProgramInfoLog(program, bufSize, length, infoLog)`: same contract
as `glGetShaderInfoLog`, for program objects. -/
def glGetProgramInfoLog (st : GLState) (id : Nat) (bufSize : Int)
    (curBuf : List Char) (curLen : Int) : List Char × Int :=
  match st.programAt id with
  | none => (curBuf, curLen)
  | some p =>
    if bufSize < 0 then (curBuf, curLen)
    else
      let n := min (bufSize - 1).toNat p.log.length
      (p.log.take n, (n : Int))

/-- `glCreateProgram`: allocates a fresh program object with no attached
shaders, false link status and empty log. Returns its name. -/
def glCreateProgram (st : GLState) : Nat × GLState :=
  (st.nextId,
   { st with nextId := st.nextId + 1,
             programs := (st.nextId, { attached := [], linked := false, log := [] })
               :: st.programs })

/-- `glAttachShader`: appends the shader name to the program's attachment
list. -/
def glAttachShader (st : GLState) (prog sh : Nat) : GLState :=
  st.setProgram prog (fun p => { p with attached := p.attached ++ [sh] })

/-- `glLinkProgram`: links the attached shaders; the driver oracle decides
link status and program info log from the attached shaders' sources, in
attachment order. -/
def glLinkProgram (st : GLState) (prog : Nat) : GLState :=
  st.setProgram prog (fun p =>
    let srcs := p.attached.map (fun h => ((st.shaderAt h).map (fun s => s.src)).getD [])
    { p with linked := st.driver.linkOk srcs, log := st.driver.linkLog srcs })

/-- `glUseProgram`: makes the program the currently bound one. -/
def glUseProgram (st : GLState) (prog : Nat) : GLState :=
  { st with current := prog }

/-- `glDeleteShader`: a shader still attached to a program is only flagged
for deletion; the object remains until detached. The shaders in this program
are always attached when deleted, so the model just sets the flag. -/
def glDeleteShader (st : GLState) (id : Nat) : GLState :=
  st.setShader id (fun s => { s with deleted := true })

/-- One line printed to stderr by `eprintln!`, kept structured: the
constructor records the fixed prefix of the formatted text.
`shaderCompileError ty log` is the line `"SHADER COMPILE ERROR ({ty}): {log}"`;
`programLinkError log` is the line `"PROGRAM LINK ERROR: {log}"`. -/
inductive Diag where
  | shaderCompileError (stage : String) (log : List Char)
  | programLinkError (log : List Char)
deriving DecidableEq

/-- The stage tag of a compile diagnostic (`"vert"` or `"frag"`), if the
diagnostic is one. -/
def Diag.stageTag : Diag → Option String
  | Diag.shaderCompileError stage _ => some stage
  | Diag.programLinkError _ => none

/-- Whether the diagnostic is a `"PROGRAM LINK ERROR"` line. -/
def Diag.isLinkError : Diag → Bool
  | Diag.shaderCompileError _ _ => false
  | Diag.programLinkError _ => true

/-- `verify_shader` from `src/scenes.rs` (lines 99–116): reads the compile
status; when it is not 1, queries `GL_INFO_LOG_LENGTH`, and if positive
allocates a buffer of that many null characters, reads the info log into it,
truncates the buffer to the returned length, and prints
`"SHADER COMPILE ERROR ({ty}): {log}"` to stderr. The returned list is the
sequence of stderr lines the call prints (the call does not mutate GL
state). -/
def verify_shader (st : GLState) (shader : Nat) (ty : String) : List Diag :=
  let status : Int := glGetShaderiv st shader COMPILE_STATUS 0
  if status ≠ 1 then
    let length : Int := glGetShaderiv st shader INFO_LOG_LENGTH 0
    if length > 0 then
      let log : List Char := List.replicate length.toNat '\x00'
      let r := glGetShaderInfoLog st shader length log length
      let log := r.1
      let length := r.2
      let log := log.take length.toNat
      [Diag.shaderCompileError ty log]
    else []
  else []

/-- `verify_program` from `src/scenes.rs` (lines 118–135), translated as
written: both the `LINK_STATUS` and the `INFO_LOG_LENGTH` query go through
`gl::GetShaderiv`, even though the parameter (named `shader` in the source
too) is a program object name; only the log read uses
`gl::GetProgramInfoLog`. -/
def verify_program (st : GLState) (shader : Nat) : List Diag :=
  let status : Int := glGetShaderiv st shader LINK_STATUS 0
  if status ≠ 1 then
    let length : Int := glGetShaderiv st shader INFO_LOG_LENGTH 0
    if length > 0 then
      let log : List Char := List.replicate length.toNat '\x00'
      let r := glGetProgramInfoLog st shader length log length
      let log := r.1
      let length := r.2
      let log := log.take length.toNat
      [Diag.programLinkError log]
    else []
  else []

/-- `create_shader_program` from `src/scenes.rs` (lines 64–97): compile the
vertex stage, verify it, compile the fragment stage, verify it, then create
a program, attach both shaders, link, bind, delete the shaders, and verify
the program.  Returns the program name, the final GL state, and the
concatenated stderr output of the three verify calls in program order. -/
def create_shader_program (st : GLState) (vert_source frag_source : List Nat) :
    Nat × GLState × List Diag :=
  let r1 := glCreateShader st VERTEX_SHADER
  let vert_shader := r1.1
  let st := r1.2
  let st := glShaderSource st vert_shader vert_source
  let st := glCompileShader st vert_shader
  let d1 := verify_shader st vert_shader "vert"
  let r2 := glCreateShader st FRAGMENT_SHADER
  let frag_shader := r2.1
  let st := r2.2
  let st := glShaderSource st frag_shader frag_source
  let st := glCompileShader st frag_shader
  let d2 := verify_shader st frag_shader "frag"
  let r3 := glCreateProgram st
  let program := r3.1
  let st := r3.2
  let st := glAttachShader st program vert_shader
  let st := glAttachShader st program frag_shader
  let st := glLinkProgram st program
  let st := glUseProgram st program
  let st := glDeleteShader st vert_shader
  let st := glDeleteShader st frag_shader
  let d3 := verify_program st program
  (program, st, d1 ++ d2 ++ d3)

/-- The stderr output of one run of the builder from a fresh GL context. -/
def builderDiags (d : Driver) (v f : List Nat) : List Diag :=
  (create_shader_program (GLState.init d) v f).2.2

/-- The GL state after one run of the builder from a fresh GL context. -/
def builderState (d : Driver) (v f : List Nat) : GLState :=
  (create_shader_program (GLState.init d) v f).2.1

/-- The program name returned by one run of the builder from a fresh GL
context. -/
def builderRet (d : Driver) (v f : List Nat) : Nat :=
  (create_shader_program (GLState.init d) v f).1

/-!
## Scene selector (`Scenes`, lines 19–62)

The scene structs themselves live in `src/scenes/round_quads.rs`,
`src/scenes/blurring.rs` and `src/scenes/kawase.rs`, which are not part of
the sources at hand; they are modelled from the spec below.  The dispatching
code of `Scenes` (`new`, `switch_scene`, `on_key`) is translated from
`src/scenes.rs` itself.  Rust's `&mut self` mutation is modelled by
returning the new value.
-/

/-- The named keys of `winit` this program inspects (`NamedKey`), closed off
with a few unrelated keys so that "any other key" is inhabited. -/
inductive NamedKey where
  | F1
  | F2
  | F3
  | ArrowUp
  | ArrowDown
  | Space
  | Escape
deriving DecidableEq

/-- `winit::keyboard::Key<SmolStr>`: a named key or a character key. -/
inductive Key where
  | named : NamedKey → Key
  | character : String → Key
deriving DecidableEq

/-- The window handle: the spec only requires it to provide the current
drawable width and height, used to size a freshly constructed scene's
resources. -/
structure Window where
  width : Int
  height : Int
deriving DecidableEq

/-- Modelled from the spec: `src/scenes/round_quads.rs` is not among the
sources.  A scene is constructed from the window and owns GPU resources
sized to the window's drawable size; RoundQuads has the simplest resource
footprint and no tunable parameters.  The instance is modelled by the size
it was constructed with. -/
structure RoundQuadsScene where
  width : Int
  height : Int
deriving DecidableEq

/-- Modelled from the spec: constructor of `RoundQuadsScene` (sources absent);
allocates resources sized to the window. -/
def RoundQuadsScene.new (w : Window) : RoundQuadsScene :=
  { width := w.width, height := w.height }

/-- Modelled from the spec: `src/scenes/blurring.rs` is not among the
sources.  The Blurring scene owns window-sized render targets and a
runtime-tunable blur radius, mutated only by key-press handling. -/
structure BlurringScene where
  width : Int
  height : Int
  radius : Nat
deriving DecidableEq

/-- Modelled from the spec: constructor of `BlurringScene` (sources absent);
allocates resources sized to the window, with a default blur radius. -/
def BlurringScene.new (w : Window) : BlurringScene :=
  { width := w.width, height := w.height, radius := 4 }

/-- Modelled from the spec: `BlurringScene`'s `on_key` adjusts the blur
radius (increment/decrement) and ignores keys outside its recognized set. -/
def BlurringScene.on_key (s : BlurringScene) (keycode : Key) : BlurringScene :=
  match keycode with
  | Key.named NamedKey.ArrowUp => { s with radius := s.radius + 1 }
  | Key.named NamedKey.ArrowDown => { s with radius := s.radius - 1 }
  | _ => s

/-- Modelled from the spec: `src/scenes/kawase.rs` is not among the sources.
The Kawase scene owns a chain of render targets and a runtime-tunable
iteration count, mutated only by key-press handling. -/
structure KawaseScene where
  width : Int
  height : Int
  iterations : Nat
deriving DecidableEq

/-- Modelled from the spec: constructor of `KawaseScene` (sources absent);
allocates resources sized to the window, with a default iteration count. -/
def KawaseScene.new (w : Window) : KawaseScene :=
  { width := w.width, height := w.height, iterations := 4 }

/-- Modelled from the spec: `KawaseScene`'s `on_key` adjusts the iteration
count (increment/decrement) and ignores keys outside its recognized set. -/
def KawaseScene.on_key (s : KawaseScene) (keycode : Key) : KawaseScene :=
  match keycode with
  | Key.named NamedKey.ArrowUp => { s with iterations := s.iterations + 1 }
  | Key.named NamedKey.ArrowDown => { s with iterations := s.iterations - 1 }
  | _ => s

/-- `enum Scenes` from `src/scenes.rs` (lines 19–23): the closed set of
mutually exclusive active techniques. -/
inductive Scenes where
  | RoundQuads : RoundQuadsScene → Scenes
  | Blurring : BlurringScene → Scenes
  | Kawase : KawaseScene → Scenes
deriving DecidableEq

/-- The variant tag of a `Scenes` value. -/
inductive SceneTag where
  | roundQuads
  | blurring
  | kawase
deriving DecidableEq

/-- Project a `Scenes` value to its variant tag. -/
def Scenes.tag : Scenes → SceneTag
  | Scenes.RoundQuads _ => SceneTag.roundQuads
  | Scenes.Blurring _ => SceneTag.blurring
  | Scenes.Kawase _ => SceneTag.kawase

/-- The function key whose press selects the given variant
(F1 ↦ RoundQuads, F2 ↦ Blurring, F3 ↦ Kawase). -/
def SceneTag.key : SceneTag → Key
  | SceneTag.roundQuads => Key.named NamedKey.F1
  | SceneTag.blurring => Key.named NamedKey.F2
  | SceneTag.kawase => Key.named NamedKey.F3

/-- `Scenes::new` (lines 26–28): the initial scene is a fresh Kawase scene
built from the window. -/
def Scenes.new (window : Window) : Scenes :=
  Scenes.Kawase (KawaseScene.new window)

/-- `Scenes::switch_scene` (lines 30–37): F1/F2/F3 replace `self` with a
freshly constructed RoundQuads/Blurring/Kawase scene; any other key leaves
`self` unchanged. -/
def Scenes.switch_scene (self : Scenes) (window : Window) (keycode : Key) : Scenes :=
  match keycode with
  | Key.named NamedKey.F1 => Scenes.RoundQuads (RoundQuadsScene.new window)
  | Key.named NamedKey.F2 => Scenes.Blurring (BlurringScene.new window)
  | Key.named NamedKey.F3 => Scenes.Kawase (KawaseScene.new window)
  | _ => self

/-- `Scenes::on_key` (lines 39–45): RoundQuads ignores the key; Blurring and
Kawase forward it to their own `on_key`. -/
def Scenes.on_key (self : Scenes) (keycode : Key) : Scenes :=
  match self with
  | Scenes.RoundQuads q => Scenes.RoundQuads q
  | Scenes.Blurring scene => Scenes.Blurring (scene.on_key keycode)
  | Scenes.Kawase scene => Scenes.Kawase (scene.on_key keycode)

/-- Modelled from the spec: the host main loop (`src/main.rs` is not among
the sources) feeds each key event to the selector; presses of the function
keys F1–F3 trigger `switch_scene`, and any other key is not a transition and
is instead forwarded to the current variant via `on_key`. -/
def handle_key (s : Scenes) (window : Window) (keycode : Key) : Scenes :=
  match keycode with
  | Key.named NamedKey.F1 => s.switch_scene window keycode
  | Key.named NamedKey.F2 => s.switch_scene window keycode
  | Key.named NamedKey.F3 => s.switch_scene window keycode
  | _ => s.on_key keycode

/-!
## Debug scope helpers (lines 137–155)

`DEBUG_ENABLED` is a process-wide `AtomicBool`, written once at startup and
only read afterwards; it is modelled as an explicit boolean argument.  A
`&CStr` message is modelled as its byte content, null terminator excluded
(`CStr::count_bytes` returns the length excluding the terminator).  Each
helper returns the list of GPU commands it issues.
-/

/-- A GPU debug-marker command issued by the helpers. -/
inductive GLCommand where
  | pushDebugGroup (source : Nat) (id : Nat) (length : Int) (message : List Nat)
  | popDebugGroup
deriving DecidableEq

/-- `push_debug_group` (lines 140–149): when the debug flag is set, pushes
an application-sourced debug group with id 0, length `message.count_bytes()`
and the message bytes; otherwise issues nothing. -/
def push_debug_group (debugEnabled : Bool) (message : List Nat) : List GLCommand :=
  if debugEnabled then
    [GLCommand.pushDebugGroup DEBUG_SOURCE_APP 0 (message.length : Int) message]
  else []

/-- `pop_debug_group` (lines 151–155): when the debug flag is set, pops the
most recent debug group; otherwise issues nothing. -/
def pop_debug_group (debugEnabled : Bool) : List GLCommand :=
  if debugEnabled then [GLCommand.popDebugGroup] else []

/-!
## Helper lemmas

The shader-program builder is a pure function of the driver oracle and the
two source buffers; the two lemmas below characterise its stderr output
(`builderDiags_eq`) and the final state of the program object it creates
(`builderState_programAt`): the only lines ever printed are compile-error
lines for a stage that failed with a nonempty log, and never a
`PROGRAM LINK ERROR` line, because `verify_program` queries both
`LINK_STATUS` and `INFO_LOG_LENGTH` through `glGetShaderiv` on a program
object name, whose out-parameters those calls leave at 0
(`GL_INVALID_OPERATION`).
-/

theorem toNat_cast_add_one (n : Nat) : ((n : Int) + 1).toNat = n + 1 := by omega

theorem not_cast_add_one_neg (n : Nat) : ¬ ((n : Int) + 1 < 0) := by omega

theorem builderDiags_eq (d : Driver) (v f : List Nat) :
    builderDiags d v f =
      (if d.compileOk VERTEX_SHADER v = true then []
       else if d.compileLog VERTEX_SHADER v = [] then []
       else [Diag.shaderCompileError "vert" (d.compileLog VERTEX_SHADER v)]) ++
      (if d.compileOk FRAGMENT_SHADER f = true then []
       else if d.compileLog FRAGMENT_SHADER f = [] then []
       else [Diag.shaderCompileError "frag" (d.compileLog FRAGMENT_SHADER f)]) := by
  simp [builderDiags, create_shader_program, glCreateShader, glShaderSource,
    glCompileShader, glCreateProgram, glAttachShader, glLinkProgram, glUseProgram,
    glDeleteShader, GLState.init, GLState.setShader, GLState.setProgram,
    verify_shader, verify_program, glGetShaderiv, glGetShaderInfoLog,
    glGetProgramInfoLog, GLState.shaderAt, GLState.programAt, List.find?,
    VERTEX_SHADER, FRAGMENT_SHADER, COMPILE_STATUS, LINK_STATUS, INFO_LOG_LENGTH]
  rcases Bool.eq_false_or_eq_true (d.compileOk 35633 v) with hv | hv <;>
    rcases Bool.eq_false_or_eq_true (d.compileOk 35632 f) with hf | hf <;>
    by_cases hlv : d.compileLog 35633 v = [] <;>
    by_cases hlf : d.compileLog 35632 f = [] <;>
    simp [hv, hf, hlv, hlf, toNat_cast_add_one, not_cast_add_one_neg, Int.toNat_natCast,
      Nat.add_sub_cancel, List.take_take, List.take_length, Int.lt_add_one_iff]

theorem builderRet_eq (d : Driver) (v f : List Nat) : builderRet d v f = 3 := rfl

theorem builderState_programAt (d : Driver) (v f : List Nat) :
    (builderState d v f).programAt 3 =
      some { attached := [1, 2], linked := d.linkOk [v, f], log := d.linkLog [v, f] } := by
  simp [builderState, create_shader_program, glCreateShader, glShaderSource,
    glCompileShader, glCreateProgram, glAttachShader, glLinkProgram, glUseProgram,
    glDeleteShader, GLState.init, GLState.setShader, GLState.setProgram,
    GLState.shaderAt, GLState.programAt, List.find?,
    VERTEX_SHADER, FRAGMENT_SHADER]

/-!
## Concrete driver oracles and inputs, used as witnesses and counterexamples
-/

/-- A driver for which both stages compile and the program links. -/
def allOkDriver : Driver :=
  { compileOk := fun _ _ => true, compileLog := fun _ _ => [],
    linkOk := fun _ => true, linkLog := fun _ => [] }

/-- A driver for which both stages compile but linking fails, with the
nonempty program info log `"bad"`. -/
def badLinkDriver : Driver :=
  { compileOk := fun _ _ => true, compileLog := fun _ _ => [],
    linkOk := fun _ => false, linkLog := fun _ => ['b', 'a', 'd'] }

/-- A driver for which the vertex stage fails to compile with an *empty*
info log, the fragment stage compiles, and the program links. -/
def vertFailSilentDriver : Driver :=
  { compileOk := fun ty _ => ty != VERTEX_SHADER, compileLog := fun _ _ => [],
    linkOk := fun _ => true, linkLog := fun _ => [] }

/-- A driver for which both stages fail to compile, with info logs `"x"`
(vertex) and `"y"` (fragment). -/
def bothFailDriver : Driver :=
  { compileOk := fun _ _ => false,
    compileLog := fun ty _ => if ty == VERTEX_SHADER then ['x'] else ['y'],
    linkOk := fun _ => true, linkLog := fun _ => [] }

/-- A driver for which the vertex stage fails to compile with info log
`"x"` and the fragment stage compiles. -/
def vertFailDriver : Driver :=
  { compileOk := fun ty _ => ty != VERTEX_SHADER,
    compileLog := fun ty _ => if ty == VERTEX_SHADER then ['x'] else [],
    linkOk := fun _ => true, linkLog := fun _ => [] }

/-- A shader object that failed to compile with an empty info log. -/
def silentFailShader : ShaderObj :=
  { ty := VERTEX_SHADER, src := [], compiled := false, log := [], deleted := false }

/-- A GL context holding `silentFailShader` under name 1 and no programs. -/
def silentFailState : GLState :=
  { driver := allOkDriver, nextId := 2, shaders := [(1, silentFailShader)],
    programs := [], current := 0 }

/-- A concrete window. -/
def witWindow : Window := { width := 800, height := 600 }

/-- A concrete scene: the selector's initial scene for `witWindow`. -/
def witScene : Scenes := Scenes.new witWindow

/-!
## The claims
-/

/-- C1: the claim says that after linking, the builder checks the program's
link status and, on failure, queries the log length, fetches the program
info log and emits it prefixed `PROGRAM LINK ERROR`.  The code does not do
this: `verify_program` issues both the `LINK_STATUS` and the
`INFO_LOG_LENGTH` query through `gl::GetShaderiv` on the *program* object
name, calls which generate `GL_INVALID_OPERATION` and leave their
out-parameters untouched, so the link status is never actually read and the
queried length stays 0, which makes the `length > 0` guard fail.  Hence (i)
for every driver and every pair of source buffers the stderr output contains
no `PROGRAM LINK ERROR` line, and in particular (ii)–(iii) at the concrete
failing input — empty sources under a driver where both stages compile but
linking fails with info log `"bad"` — the final program object really has
link status false, yet nothing at all is printed. -/
theorem link_failure_never_reported :
    (∀ (d : Driver) (v f : List Nat),
      ((builderDiags d v f).all (fun x => !x.isLinkError)) = true) ∧
    (builderState badLinkDriver [] []).programAt 3 =
      some { attached := [1, 2], linked := false, log := ['b', 'a', 'd'] } ∧
    builderDiags badLinkDriver [] [] = [] := by
  refine ⟨fun d v f => ?_, rfl, rfl⟩
  rw [builderDiags_eq]
  split_ifs <;> simp [Diag.isLinkError]

/-- C2: for every driver and pair of source buffers under which both stages
compile successfully and the program links successfully, the builder prints
nothing to stderr, and the program object named by the returned handle has
link status true. -/
theorem valid_sources_silent_and_linked (d : Driver) (v f : List Nat)
    (hv : d.compileOk VERTEX_SHADER v = true) (hf : d.compileOk FRAGMENT_SHADER f = true)
    (hl : d.linkOk [v, f] = true) :
    builderDiags d v f = [] ∧
    ((builderState d v f).programAt (builderRet d v f)).map ProgramObj.linked = some true := by
  constructor
  · rw [builderDiags_eq]; simp [hv, hf]
  · rw [builderRet_eq, builderState_programAt]; simp [hl]

/-- Witness for C2 at the all-succeeding driver and empty sources. -/
theorem valid_sources_silent_and_linked_witness :
    builderDiags allOkDriver [] [] = [] ∧
    ((builderState allOkDriver [] []).programAt (builderRet allOkDriver [] [])).map
      ProgramObj.linked = some true :=
  valid_sources_silent_and_linked allOkDriver [] [] rfl rfl rfl

/-- C3, counterexample to the claim as stated: under `vertFailSilentDriver`
the vertex stage's compilation fails (the shader object created under name 1
has compile status false), yet the builder emits nothing at all — the claim
promised an emitted log for *every* failing stage, but when the queried
info-log length is 0 the `length > 0` guard skips the report. -/
theorem compile_failure_empty_log_silent :
    ((builderState vertFailSilentDriver [] []).shaderAt 1).map ShaderObj.compiled = some false ∧
    builderDiags vertFailSilentDriver [] [] = [] := by
  exact ⟨rfl, rfl⟩

/-- C3 as amended: for every stage whose compilation fails *and whose
queried info-log length is positive* (equivalently, whose info log is
nonempty), the stderr output contains the line
`SHADER COMPILE ERROR (<stage>): <log>` carrying the stage tag (`"vert"` for
the vertex stage, `"frag"` for the fragment stage) and the full info-log
text — the buffer read uses exactly the queried length, so the emitted text
is the whole log; and in all cases the builder returns normally with a
handle that names a program object in the final state (nothing aborts). -/
theorem compile_failure_reported (d : Driver) (v f : List Nat) :
    (d.compileOk VERTEX_SHADER v = false → d.compileLog VERTEX_SHADER v ≠ [] →
      Diag.shaderCompileError "vert" (d.compileLog VERTEX_SHADER v) ∈ builderDiags d v f) ∧
    (d.compileOk FRAGMENT_SHADER f = false → d.compileLog FRAGMENT_SHADER f ≠ [] →
      Diag.shaderCompileError "frag" (d.compileLog FRAGMENT_SHADER f) ∈ builderDiags d v f) ∧
    ((builderState d v f).programAt (builderRet d v f)).isSome = true := by
  refine ⟨fun hv hlog => ?_, fun hf hlog => ?_, ?_⟩
  · rw [builderDiags_eq]; simp [hv, hlog]
  · rw [builderDiags_eq]; simp [hf, hlog]
  · rw [builderRet_eq, builderState_programAt]; rfl

/-- Witness for C3 at the driver under which both stages fail with nonempty
logs `"x"` and `"y"`. -/
theorem compile_failure_reported_witness :
    Diag.shaderCompileError "vert" ['x'] ∈ builderDiags bothFailDriver [] [] ∧
    Diag.shaderCompileError "frag" ['y'] ∈ builderDiags bothFailDriver [] [] :=
  ⟨(compile_failure_reported bothFailDriver [] []).1 rfl (by decide),
   (compile_failure_reported bothFailDriver [] []).2.1 rfl (by decide)⟩

/-- C4, counterexample to the claim as stated: under `vertFailSilentDriver`
the vertex stage fails to compile and the fragment stage compiles, yet the
number of `"vert"`-tagged diagnostics is 0, not the promised exactly one,
because the vertex stage's queried info-log length is 0. -/
theorem vert_failure_unreported :
    ((builderState vertFailSilentDriver [] []).shaderAt 1).map ShaderObj.compiled = some false ∧
    ((builderState vertFailSilentDriver [] []).shaderAt 2).map ShaderObj.compiled = some true ∧
    (builderDiags vertFailSilentDriver [] []).countP
      (fun x => x.stageTag == some "vert") = 0 := by
  exact ⟨rfl, rfl, rfl⟩

/-- C4 as amended: whenever the vertex stage fails to compile *with a
nonempty info log* and the fragment stage compiles successfully, the stderr
output contains exactly one diagnostic tagged `"vert"` and none tagged
`"frag"`. -/
theorem vert_failure_tagged_once (d : Driver) (v f : List Nat)
    (hv : d.compileOk VERTEX_SHADER v = false) (hlog : d.compileLog VERTEX_SHADER v ≠ [])
    (hf : d.compileOk FRAGMENT_SHADER f = true) :
    (builderDiags d v f).countP (fun x => x.stageTag == some "vert") = 1 ∧
    (builderDiags d v f).countP (fun x => x.stageTag == some "frag") = 0 := by
  rw [builderDiags_eq]
  simp [hv, hlog, hf, Diag.stageTag]

/-- Witness for C4 at the driver under which the vertex stage fails with log
`"x"` and the fragment stage compiles. -/
theorem vert_failure_tagged_once_witness :
    (builderDiags vertFailDriver [] []).countP (fun x => x.stageTag == some "vert") = 1 ∧
    (builderDiags vertFailDriver [] []).countP (fun x => x.stageTag == some "frag") = 0 :=
  vert_failure_tagged_once vertFailDriver [] [] rfl (by decide) rfl

/-- C5: for every current scene, window and key event fed to the selector,
F1 yields a fresh RoundQuads scene, F2 a fresh Blurring scene, F3 a fresh
Kawase scene (each constructed from the window), and any other key causes no
transition — the event is forwarded to the current variant's `on_key` and
the variant tag is unchanged. -/
theorem selector_key_dispatch (s : Scenes) (w : Window) (k : Key) :
    handle_key s w (Key.named NamedKey.F1) = Scenes.RoundQuads (RoundQuadsScene.new w) ∧
    handle_key s w (Key.named NamedKey.F2) = Scenes.Blurring (BlurringScene.new w) ∧
    handle_key s w (Key.named NamedKey.F3) = Scenes.Kawase (KawaseScene.new w) ∧
    (k ≠ Key.named NamedKey.F1 → k ≠ Key.named NamedKey.F2 → k ≠ Key.named NamedKey.F3 →
      handle_key s w k = s.on_key k ∧ (s.on_key k).tag = s.tag) := by
  refine ⟨rfl, rfl, rfl, fun h1 h2 h3 => ?_⟩
  cases k with
  | named nk =>
    cases nk
    · exact absurd rfl h1
    · exact absurd rfl h2
    · exact absurd rfl h3
    all_goals exact ⟨rfl, by cases s <;> rfl⟩
  | character c => exact ⟨rfl, by cases s <;> rfl⟩

/-- Witness for C5: the Space key, which is none of F1/F2/F3, is forwarded
to the current variant's `on_key` and leaves the variant tag unchanged. -/
theorem selector_key_dispatch_witness :
    handle_key witScene witWindow (Key.named NamedKey.Space) =
      Scenes.on_key witScene (Key.named NamedKey.Space) ∧
    (Scenes.on_key witScene (Key.named NamedKey.Space)).tag = Scenes.tag witScene :=
  (selector_key_dispatch witScene witWindow (Key.named NamedKey.Space)).2.2.2
    (by decide) (by decide) (by decide)

/-- C6: switching is idempotent in the variant tag, and the construction
path is independent of the current scene: for every pair of current scenes
`s`, `t`, pressing the function key of `s`'s variant produces the very same
freshly-constructed scene from either starting point, and pressing the key
of the currently-active variant yields the same variant tag again. -/
theorem switch_scene_idempotent_tag (s t : Scenes) (w : Window) :
    s.switch_scene w (SceneTag.key s.tag) = t.switch_scene w (SceneTag.key s.tag) ∧
    (s.switch_scene w (SceneTag.key s.tag)).tag = s.tag := by
  cases s <;> cases t <;> exact ⟨rfl, rfl⟩

/-- C7: for every key event, when the active variant is RoundQuads the
selector's `on_key` returns the state unchanged — no scene handler is
invoked and nothing is mutated. -/
theorem round_quads_on_key_noop (q : RoundQuadsScene) (k : Key) :
    Scenes.on_key (Scenes.RoundQuads q) k = Scenes.RoundQuads q := rfl

/-- C8: for every message, begin-scope and end-scope issue zero GPU marker
commands when the process-wide debug flag is false; when it is true,
begin-scope issues exactly one application-sourced push whose length
argument is the byte length of the message (the `CStr` byte content
excluding the null terminator) and end-scope issues exactly one pop. -/
theorem debug_scope_commands (msg : List Nat) :
    push_debug_group false msg = [] ∧
    pop_debug_group false = [] ∧
    push_debug_group true msg =
      [GLCommand.pushDebugGroup DEBUG_SOURCE_APP 0 (msg.length : Int) msg] ∧
    pop_debug_group true = [GLCommand.popDebugGroup] :=
  ⟨rfl, rfl, rfl, rfl⟩

/-- C9: for every window, the selector's constructor produces the Kawase
variant, freshly constructed from the window, as the initial state. -/
theorem initial_scene_is_kawase (w : Window) :
    Scenes.new w = Scenes.Kawase (KawaseScene.new w) ∧
    (Scenes.new w).tag = SceneTag.kawase :=
  ⟨rfl, rfl⟩

/-- C10: a failure whose queried info-log length is not positive is
completely silent.  For a shader object whose compile status is false but
whose info log is empty (so `GL_INFO_LOG_LENGTH` answers 0), `verify_shader`
prints nothing; and for a program object name (on which the code's
`glGetShaderiv` queries leave both status and length at 0) `verify_program`
prints nothing. -/
theorem empty_log_failure_silent (st : GLState) (hdl p : Nat) (ty : String) (sh : ShaderObj)
    (hs : st.shaderAt hdl = some sh) (hc : sh.compiled = false) (hlog : sh.log = [])
    (hp : st.shaderAt p = none) :
    verify_shader st hdl ty = [] ∧ verify_program st p = [] := by
  constructor
  · simp [verify_shader, glGetShaderiv, glGetShaderInfoLog, hs, hc, hlog,
      COMPILE_STATUS, INFO_LOG_LENGTH]
  · simp [verify_program, glGetShaderiv, glGetProgramInfoLog, hp,
      LINK_STATUS, INFO_LOG_LENGTH]

/-- Witness for C10 at a concrete context: shader 1 failed with an empty
log, and 5 names no shader object. -/
theorem empty_log_failure_silent_witness :
    verify_shader silentFailState 1 "vert" = [] ∧ verify_program silentFailState 5 = [] :=
  empty_log_failure_silent silentFailState 1 5 "vert" silentFailShader
    (by decide) (by decide) (by decide) (by decide)
